import Mathlib

/-!
Verification of the melior ODS operation-builder generator
(`macro/src/dialect/operation/builder.rs`) and of `Operation::result`
(`melior/src/ir/operation.rs`).

The generator is embedded shallowly: token-stream templates produced by
`quote!` become inductive constructors whose arguments are exactly the
interpolated parts of the template; the fixed text of each template is
recorded in the constructor's doc comment.  Fallible Rust functions
returning `Result<T, Error>` become Lean functions returning
`Except Error T`, and `collect::<Result<Vec<_>, _>>()` becomes the
`collect` function below, which short-circuits at the first error.
-/

namespace Dialect

/-- Generation-time error. Modelled from the spec: the spec's §7 names a
single error kind, InvalidIdentifier/NameCollision, plus type-resolution
failures surfaced through `parameter_type`; the repository's `error::Error`
type itself is outside the provided sources. -/
inductive Error where
  | invalidIdentifier (name : String)
  | unsupportedType (message : String)
deriving DecidableEq

/-- Returns `true` exactly on the `Except.error` constructor (Rust `Result::is_err`). -/
def exceptIsError : Except ε α → Bool
  | .error _ => true
  | .ok _ => false

/-- Rust's `Iterator<Item = Result<T, E>>::collect::<Result<Vec<T>, E>>()`:
returns the first error, or the list of all successes. -/
def collect : List (Except ε α) → Except ε (List α)
  | [] => .ok []
  | .error e :: _ => .error e
  | .ok a :: rest =>
    match collect rest with
    | .error e => .error e
    | .ok as_ => .ok (a :: as_)

/-- Models the snake-case conversion of the external `convert_case` crate
(`name.to_case(Case::Snake)`) on plain camelCase / snake_case ASCII
identifiers: a word boundary is inserted before an uppercase letter,
separators become underscores, and letters are lowercased. -/
def snakeStep (acc : List Char) (c : Char) : List Char :=
  if c.isUpper then
    match acc with
    | [] => [c.toLower]
    | p :: _ => if p = '_' then c.toLower :: acc else c.toLower :: '_' :: acc
  else if c = '-' ∨ c = ' ' then
    match acc with
    | [] => []
    | p :: _ => if p = '_' then acc else '_' :: acc
  else
    c :: acc

/-- See `snakeStep`. -/
def toSnakeCase (s : String) : String :=
  String.mk ((s.data.foldl snakeStep []).reverse)

/-- Rust reserved words relevant to generated identifiers (subset used by
the sanitizer model). -/
def reservedWords : List String :=
  ["else", "fn", "if", "in", "loop", "match", "mod", "move", "type", "use", "while"]

/-- A character allowed in a generated snake-case identifier. -/
def isIdentChar (c : Char) : Bool :=
  c.isLower || c.isDigit || c = '_'

/-- Modelled from the spec: `sanitize_snake_case_name`
(`macro/src/dialect/utility.rs`, outside the provided sources) converts a
field or operation name to snake case, escapes reserved words, and fails
with an invalid-identifier error when the result is not a usable
identifier ("case normalization, reserved-word escaping", spec §4.1). -/
def sanitize_snake_case_name (name : String) : Except Error String :=
  let snake := toSnakeCase name
  if snake ≠ "" ∧ snake.data.all isIdentChar ∧ ¬(snake.data.headD '_').isDigit then
    if reservedWords.contains snake then .ok ("r#" ++ snake)
    else .ok snake
  else .error (.invalidIdentifier name)

/-- A generic argument appearing in a builder type instantiation: either a
type-state generic parameter identifier, or one of the two marker types
`::melior::dialect::ods_support::Unset` / `Set`. -/
inductive GenericArg where
  | param (name : String)
  | unset
  | set
deriving DecidableEq

/-- One type-state slot (`TypeStateItem` in `builder.rs`): the field name
and its generated generic parameter. -/
structure TypeStateItem where
  field_name : String
  generic_param : GenericArg
deriving DecidableEq

/-- Rust `TypeStateItem::new`: the generic parameter is
`format_ident!("__{}", field_name.to_case(Case::Snake))`. -/
def TypeStateItem.new (field_name : String) : TypeStateItem :=
  { field_name := field_name
    generic_param := .param ("__" ++ toSnakeCase field_name) }

/-- Rust `TypeStateList` in `builder.rs`: the slot list plus the two parsed
marker arguments stored by `TypeStateList::new`. -/
structure TypeStateList where
  items : List TypeStateItem
  unset : GenericArg
  set : GenericArg
deriving DecidableEq

/-- Rust `TypeStateList::new`. -/
def TypeStateList.new (items : List TypeStateItem) : TypeStateList :=
  { items := items, unset := .unset, set := .set }

/-- Rust `TypeStateList::parameters`. -/
def TypeStateList.parameters (l : TypeStateList) : List GenericArg :=
  l.items.map TypeStateItem.generic_param

/-- Rust `TypeStateList::parameters_without`. -/
def TypeStateList.parameters_without (l : TypeStateList) (field_name : String) :
    List GenericArg :=
  (l.items.filter (fun item => item.field_name != field_name)).map
    TypeStateItem.generic_param

/-- Rust `TypeStateList::arguments_replace`. -/
def TypeStateList.arguments_replace (l : TypeStateList) (field_name : String)
    (argument : GenericArg) : List GenericArg :=
  l.items.map (fun item =>
    if item.field_name == field_name then argument else item.generic_param)

/-- Rust `TypeStateList::arguments_set`. -/
def TypeStateList.arguments_set (l : TypeStateList) (field_name : String) :
    List GenericArg :=
  l.arguments_replace field_name l.set

/-- Rust `TypeStateList::arguments_unset`. -/
def TypeStateList.arguments_unset (l : TypeStateList) (field_name : String) :
    List GenericArg :=
  l.arguments_replace field_name l.unset

/-- Rust `TypeStateList::arguments_all_set` (`repeat(&self.set).take(len)`). -/
def TypeStateList.arguments_all_set (l : TypeStateList) : List GenericArg :=
  List.replicate l.items.length l.set

/-- Rust `TypeStateList::arguments_all_unset`. -/
def TypeStateList.arguments_all_unset (l : TypeStateList) : List GenericArg :=
  List.replicate l.items.length l.unset

/-- Operand or result position of an element field (`ElementKind` in the
macro crate, outside the provided sources; visible through
`FieldKind::as_str` and `is_result`). -/
inductive ElementKind where
  | operand
  | result
deriving DecidableEq

/-- Rust `ElementKind::as_str`. -/
def ElementKind.as_str : ElementKind → String
  | .operand => "operand"
  | .result => "result"

/-- Arity information of a field's type constraint, as queried by
`builder.rs` (`is_optional`, `is_variadic`, `has_variable_length`).
Modelled from the spec: arity ∈ {Single, Optional, Variadic}; a constraint
has variable length exactly when it is optional or variadic. -/
structure Constraint where
  optional : Bool
  variadic : Bool
deriving DecidableEq

/-- Rust `constraint.is_optional()`. -/
def Constraint.is_optional (c : Constraint) : Bool := c.optional

/-- Rust `constraint.is_variadic()`. -/
def Constraint.is_variadic (c : Constraint) : Bool := c.variadic

/-- Rust `constraint.has_variable_length()`: optional or variadic. -/
def Constraint.has_variable_length (c : Constraint) : Bool :=
  c.optional || c.variadic

instance {ε α : Type} [DecidableEq ε] [DecidableEq α] :
    DecidableEq (Except ε α) := fun a b =>
  match a, b with
  | .ok x, .ok y =>
    if h : x = y then .isTrue (by rw [h]) else .isFalse (fun hc => h (Except.ok.inj hc))
  | .ok _, .error _ => .isFalse (fun hc => Except.noConfusion hc)
  | .error _, .ok _ => .isFalse (fun hc => Except.noConfusion hc)
  | .error x, .error y =>
    if h : x = y then .isTrue (by rw [h]) else .isFalse (fun hc => h (Except.error.inj hc))

/-- Rust `FieldKind` of the macro crate, as used by `builder.rs`: the role of
the field together with its constraint.  Each constructor also carries the
outcome of `parameter_type()` (the renderable parameter-type expression of
spec §3, whose resolution by the schema layer outside the provided sources
may fail). -/
inductive FieldKind where
  | element (kind : ElementKind) (constraint : Constraint) (ptype : Except Error String)
  | attr (constraint : Constraint) (ptype : Except Error String)
  | successor (constraint : Constraint) (ptype : Except Error String)
  | region (constraint : Constraint) (ptype : Except Error String)
deriving DecidableEq

/-- Rust `FieldKind::parameter_type`. -/
def FieldKind.parameter_type : FieldKind → Except Error String
  | .element _ _ t => t
  | .attr _ t => t
  | .successor _ t => t
  | .region _ t => t

/-- Rust `FieldKind::as_str`, the stem of the `add_{}s` melior builder method. -/
def FieldKind.as_str : FieldKind → String
  | .element kind _ _ => kind.as_str
  | .attr _ _ => "attribute"
  | .successor _ _ => "successor"
  | .region _ _ => "region"

/-- Rust `FieldKind::is_optional` (modelled infallible: the Rust signature is
`Result<bool, Error>`, but per spec §6 the core trusts arity correctness;
only element and attribute fields can be optional). -/
def FieldKind.is_optional : FieldKind → Bool
  | .element _ c _ => c.is_optional
  | .attr c _ => c.is_optional
  | .successor _ _ => false
  | .region _ _ => false

/-- Rust `FieldKind::is_result`. -/
def FieldKind.is_result : FieldKind → Bool
  | .element .result _ _ => true
  | _ => false

/-- Rust `OperationField` of the macro crate as used by `builder.rs`: the raw
name, the stored pre-sanitized name (computed at schema-extraction time,
outside the provided sources; per spec §8.9 it is the deterministic
sanitization of the name), and the kind. -/
structure OperationField where
  name : String
  sanitized_name : String
  kind : FieldKind
deriving DecidableEq

/-- The operation schema (`Operation` of the macro crate) as read by
`builder.rs`. -/
structure Operation where
  class_name : String
  short_name : String
  full_name : String
  summary : String
  can_infer_type : Bool
  fields : List OperationField
deriving DecidableEq

/-- Rust `OperationBuilder::required_fields`: drop result fields when the
operation can infer result types, then drop optional fields. -/
def required_fields (operation : Operation) : List OperationField :=
  (operation.fields.filter
      (fun field => !field.kind.is_result || !operation.can_infer_type)).filter
    (fun field => !field.kind.is_optional)

/-- Rust `OperationBuilder::create_type_state`: one `TypeStateItem` per required
field, in order.  The only fallible step in the Rust code is the
(modelled-infallible) `is_optional` inside `required_fields`; no
collision check is performed. -/
def create_type_state (operation : Operation) : Except Error TypeStateList :=
  .ok (TypeStateList.new
    ((required_fields operation).map (fun field => TypeStateItem.new field.name)))

/-- The generator state (`OperationBuilder` struct of `builder.rs`). -/
structure OperationBuilder where
  operation : Operation
  type_state : TypeStateList
deriving DecidableEq

/-- Rust `OperationBuilder::new`. -/
def OperationBuilder.new (operation : Operation) : Except Error OperationBuilder :=
  (create_type_state operation).map (fun ts => { operation := operation, type_state := ts })

/-- Rust `OperationBuilder::builder_identifier`:
`format_ident!("{}Builder", class_name)`. -/
def builder_identifier (operation : Operation) : String :=
  operation.class_name ++ "Builder"

/-- The `add_arguments` expression of a setter body (`builder.rs` lines
129-161): how the supplied value is adapted to the always-variadic melior
`add_*s` primitive.  Constructors encode the four emitted token shapes. -/
inductive AddArgs where
  /-- Template `quote! { name }`: a pre-built collection forwarded as-is. -/
  | passThrough (name : String)
  /-- Template `quote! { &[name] }`: a single value wrapped in a slice. -/
  | sliceWrap (name : String)
  /-- Template `quote! { vec![name] }`: a single region wrapped in a `Vec`. -/
  | vecWrap (name : String)
  /-- Template `quote! { &[(Identifier::new(self.context, name_string), name.into())] }`:
  an attribute paired with its name token. -/
  | keyValue (name_string : String) (name : String)
deriving DecidableEq

/-- The `match &field.kind` computing `add_arguments` in
`create_builder_fns`. -/
def add_arguments (field : OperationField) (name : String) : AddArgs :=
  match field.kind with
  | .element _ constraint _ =>
    if constraint.has_variable_length && !constraint.is_optional then
      .passThrough name
    else
      .sliceWrap name
  | .attr _ _ => .keyValue field.name name
  | .successor constraint _ =>
    if constraint.is_variadic then .passThrough name else .sliceWrap name
  | .region constraint _ =>
    if constraint.is_variadic then .passThrough name else .vecWrap name

/-- One emitted per-field item of `create_builder_fns`.  Each constructor
stands for one fixed `quote!` template; the constructor arguments are
exactly the interpolated parts, in source order. -/
inductive BuilderFn where
  /-- Template for an optional field:
  `impl<'c, parameters> Ident<'c, parameters> (pub fn name(mut self, name: parameter_type)
  -> Ident<'c, parameters> (self.builder = self.builder.add(add_args); self))` —
  the same `parameters` list is spliced into the generic-parameter list,
  the receiver instantiation and the return instantiation, so input and
  output type arguments are identical. -/
  | optionalSetter (builder_ident : String) (parameters : List GenericArg)
      (name : String) (parameter_type : String) (add : String) (add_args : AddArgs)
  /-- Template `quote!()`: nothing is emitted (result field of an
  operation that can infer result types). -/
  | empty
  /-- Template for a required field:
  `impl<'c, parameters> Ident<'c, arguments_unset> (pub fn name(mut self, name: parameter_type)
  -> Ident<'c, arguments_set> (self.builder = self.builder.add(add_args);
  let Self (context, mut builder, field_names) = self;
  Ident (context, builder, phantoms)))` — the body merges the value into
  the accumulated builder and rebuilds the struct forwarding the stored
  `context` and the updated `builder` unchanged. -/
  | requiredSetter (builder_ident : String) (parameters : List GenericArg)
      (arguments_unset : List GenericArg) (arguments_set : List GenericArg)
      (name : String) (parameter_type : String) (add : String) (add_args : AddArgs)
      (field_names : List String) (phantoms : List String)
deriving DecidableEq

/-- Name of the method a `BuilderFn` defines, if any. -/
def BuilderFn.methodName : BuilderFn → Option String
  | .optionalSetter _ _ name _ _ _ => some name
  | .empty => none
  | .requiredSetter _ _ _ _ name _ _ _ _ _ => some name

/-- Type arguments of the receiver (`impl ... Ident<'c, args>`) of a
setter, if any. -/
def BuilderFn.input_arguments : BuilderFn → Option (List GenericArg)
  | .optionalSetter _ parameters _ _ _ _ => some parameters
  | .empty => none
  | .requiredSetter _ _ arguments_unset _ _ _ _ _ _ _ => some arguments_unset

/-- Type arguments of the return type of a setter, if any. -/
def BuilderFn.output_arguments : BuilderFn → Option (List GenericArg)
  | .optionalSetter _ parameters _ _ _ _ => some parameters
  | .empty => none
  | .requiredSetter _ _ _ arguments_set _ _ _ _ _ _ => some arguments_set

/-- Runtime state carried by a generated builder value: the context
handle, the operation name the inner melior builder was created with, and
the accumulated `add_*s` calls, in order. -/
structure BuilderState where
  context : Nat
  op_name : String
  adds : List (String × AddArgs)
deriving DecidableEq

/-- Interpretation of a setter template's body on the runtime state: both
setter templates perform `self.builder = self.builder.add(add_args)` and
forward the stored context unchanged (the required template by
destructuring and rebuilding the struct, the optional one by returning
`self`). -/
def applySetter (fn : BuilderFn) (s : BuilderState) : BuilderState :=
  match fn with
  | .optionalSetter _ _ _ _ add add_args =>
    { s with adds := s.adds ++ [(add, add_args)] }
  | .empty => s
  | .requiredSetter _ _ _ _ _ _ add add_args _ _ =>
    { s with adds := s.adds ++ [(add, add_args)] }

/-- The closure body of `OperationBuilder::create_builder_fns`
(`builder.rs` lines 120-193) for one field. -/
def create_builder_fn (operation : Operation) (type_state : TypeStateList)
    (field_names phantoms : List String) (field : OperationField) :
    Except Error BuilderFn :=
  match sanitize_snake_case_name field.name with
  | .error e => .error e
  | .ok name =>
    match field.kind.parameter_type with
    | .error e => .error e
    | .ok parameter_type =>
      let add := "add_" ++ field.kind.as_str ++ "s"
      let add_args := add_arguments field name
      if field.kind.is_optional then
        .ok (.optionalSetter (builder_identifier operation) type_state.parameters
          name parameter_type add add_args)
      else if field.kind.is_result && operation.can_infer_type then
        .ok .empty
      else
        .ok (.requiredSetter (builder_identifier operation)
          (type_state.parameters_without field.name)
          (type_state.arguments_unset field.name)
          (type_state.arguments_set field.name)
          name parameter_type add add_args field_names phantoms)

/-- Rust `OperationBuilder::create_builder_fns`: one item per schema
field, in order. -/
def create_builder_fns (b : OperationBuilder) (field_names phantoms : List String) :
    List (Except Error BuilderFn) :=
  b.operation.fields.map
    (create_builder_fn b.operation b.type_state field_names phantoms)

/-- The emitted `build` method (`create_build_fn`), template:
`impl<'c> Ident<'c, arguments_set> (pub fn build(self) -> ClassName<'c>
(self.builder [.enable_result_type_inference() when infer] .build()
.try_into().expect(error)))`. -/
structure BuildFn where
  builder_ident : String
  arguments_set : List GenericArg
  class_name : String
  error : String
  infer : Bool
deriving DecidableEq

/-- Rust `OperationBuilder::create_build_fn`. -/
def create_build_fn (b : OperationBuilder) : BuildFn :=
  { builder_ident := builder_identifier b.operation
    arguments_set := b.type_state.arguments_all_set
    class_name := b.operation.class_name
    error := "should be a valid " ++ b.operation.class_name
    infer := b.operation.can_infer_type }

/-- The emitted `new` constructor (`create_new_fn`), template:
`impl<'c> Ident<'c, arguments_unset> (pub fn new(location: Location<'c>) -> Self
(Self (context: unsafe (location.context().to_ref()),
builder: melior OperationBuilder::new(full_name, location), phantoms)))`. -/
structure NewFn where
  builder_ident : String
  full_name : String
  arguments_unset : List GenericArg
  phantoms : List String
deriving DecidableEq

/-- Rust `OperationBuilder::create_new_fn`. -/
def create_new_fn (b : OperationBuilder) (phantoms : List String) : NewFn :=
  { builder_ident := builder_identifier b.operation
    full_name := b.operation.full_name
    arguments_unset := b.type_state.arguments_all_unset
    phantoms := phantoms }

/-- Interpretation of the `new` template's body: the accumulated state is
a fresh, empty melior operation builder created from `full_name` and the
caller-supplied location, and the stored context is the location's
context. -/
def applyNew (fn : NewFn) (location_context : Nat) : BuilderState :=
  { context := location_context, op_name := fn.full_name, adds := [] }

/-- The complete output of `OperationBuilder::builder`: the builder
struct (with its phantom-data fields), the `new` constructor, the
per-field methods, and the `build` method. -/
structure BuilderOutput where
  builder_ident : String
  parameters : List GenericArg
  phantom_fields : List (GenericArg × String)
  new_fn : NewFn
  builder_fns : List BuilderFn
  build_fn : BuildFn
  doc : String
deriving DecidableEq

/-- Rust `OperationBuilder::builder` (`builder.rs` lines 196-243).
Phantom-data initializer tokens (`name: PhantomData`) are represented by
the field name that determines them. -/
def OperationBuilder.builder (b : OperationBuilder) : Except Error BuilderOutput :=
  match collect (b.type_state.items.map
      (fun item => sanitize_snake_case_name item.field_name)) with
  | .error e => .error e
  | .ok field_names =>
    match collect (create_builder_fns b field_names field_names) with
    | .error e => .error e
    | .ok builder_fns =>
      .ok { builder_ident := builder_identifier b.operation
            parameters := b.type_state.parameters
            phantom_fields := b.type_state.parameters.zip field_names
            new_fn := create_new_fn b field_names
            builder_fns := builder_fns
            build_fn := create_build_fn b
            doc := "Builder for " ++ b.operation.summary }

/-- One parameter of the generated convenience constructor. -/
inductive CtorArg where
  /-- A per-required-field parameter `name: parameter_type`. -/
  | field (name : String) (parameter_type : String)
  /-- The trailing `location: ::melior::ir::Location<'c>` parameter. -/
  | location
deriving DecidableEq

/-- The argument-building closure of `create_default_constructor`
(`builder.rs` lines 299-305): parameter name is the field's stored
sanitized name, parameter type is `field.kind.parameter_type()?`. -/
def default_constructor_argument (field : OperationField) : Except Error CtorArg :=
  field.kind.parameter_type.map (fun pt => .field field.sanitized_name pt)

/-- The call-chain closure of `create_default_constructor` (`builder.rs`
lines 309-313): each chained call is `.name(name)` with the field's
stored sanitized name. -/
def default_constructor_call (field : OperationField) : String :=
  field.sanitized_name

/-- The emitted convenience constructor, template:
`pub fn fn_name<'c>(arguments) -> ClassName<'c>
(ClassName::builder(location) builder_calls .build())` — the body is
exactly: construct from `location`, chain one setter call per entry of
`builder_calls` in order (each passing the same-named parameter), then
`build()`. -/
structure DefaultConstructorFn where
  class_name : String
  fn_name : String
  arguments : List CtorArg
  builder_calls : List String
deriving DecidableEq

/-- Rust `OperationBuilder::create_default_constructor` (`builder.rs`
lines 295-325). -/
def create_default_constructor (b : OperationBuilder) :
    Except Error DefaultConstructorFn :=
  match sanitize_snake_case_name b.operation.short_name with
  | .error e => .error e
  | .ok name =>
    match collect ((required_fields b.operation).map default_constructor_argument
        ++ [.ok .location]) with
    | .error e => .error e
    | .ok arguments =>
      .ok { class_name := b.operation.class_name
            fn_name := name
            arguments := arguments
            builder_calls :=
              (required_fields b.operation).map default_constructor_call }

/-- The required-field set exactly as the spec words it (§3): the
sub-sequence of fields whose arity is not optional, additionally
excluding Result-role fields exactly when the operation supports
result-type inference, in declaration order. -/
def requiredFieldSet_spec (operation : Operation) : List OperationField :=
  operation.fields.filter
    (fun field => !field.kind.is_optional &&
      !(field.kind.is_result && operation.can_infer_type))

/-- Operation schema with two required operand fields whose names
`fooBar` and `foo_bar` both snake-case to `foo_bar`, so their generated
generic parameters collide. -/
def c1_op : Operation :=
  { class_name := "Collide", short_name := "collide", full_name := "test.collide",
    summary := "collide op", can_infer_type := false,
    fields :=
      [{ name := "fooBar", sanitized_name := "foo_bar",
         kind := .element .operand { optional := false, variadic := false } (.ok "Value") },
       { name := "foo_bar", sanitized_name := "foo_bar",
         kind := .element .operand { optional := false, variadic := false } (.ok "Value") }] }

/-- Required single operand field `lhs`. -/
def c2_lhs : OperationField :=
  { name := "lhs", sanitized_name := "lhs",
    kind := .element .operand { optional := false, variadic := false } (.ok "Value") }

/-- Required single operand field `rhs`. -/
def c2_rhs : OperationField :=
  { name := "rhs", sanitized_name := "rhs",
    kind := .element .operand { optional := false, variadic := false } (.ok "Value") }

/-- Operation schema with two required operand fields. -/
def c2_op : Operation :=
  { class_name := "Add", short_name := "add", full_name := "arith.add",
    summary := "addition", can_infer_type := false, fields := [c2_lhs, c2_rhs] }

/-- Type state derived from `c2_op`. -/
def c2_ts : TypeStateList :=
  TypeStateList.new [TypeStateItem.new "lhs", TypeStateItem.new "rhs"]

/-- Operation schema with one required operand field. -/
def c3_op : Operation :=
  { class_name := "Three", short_name := "three", full_name := "test.three",
    summary := "three op", can_infer_type := false,
    fields :=
      [{ name := "value", sanitized_name := "value",
         kind := .element .operand { optional := false, variadic := false } (.ok "Value") }] }

/-- Generator state constructed from `c3_op`. -/
def c3_b : OperationBuilder :=
  { operation := c3_op, type_state := TypeStateList.new [TypeStateItem.new "value"] }

/-- Operation schema with two required operand fields for the convenience
constructor. -/
def c5_op : Operation :=
  { class_name := "Mul", short_name := "mul", full_name := "arith.mul",
    summary := "multiplication", can_infer_type := false,
    fields :=
      [{ name := "lhs", sanitized_name := "lhs",
         kind := .element .operand { optional := false, variadic := false } (.ok "Value") },
       { name := "rhs", sanitized_name := "rhs",
         kind := .element .operand { optional := false, variadic := false } (.ok "Value") }] }

/-- Generator state constructed from `c5_op`. -/
def c5_b : OperationBuilder :=
  { operation := c5_op,
    type_state := TypeStateList.new [TypeStateItem.new "lhs", TypeStateItem.new "rhs"] }

/-- Operation schema with one required operand field. -/
def c6_op : Operation :=
  { class_name := "Six", short_name := "six", full_name := "test.six",
    summary := "six op", can_infer_type := false,
    fields :=
      [{ name := "value", sanitized_name := "value",
         kind := .element .operand { optional := false, variadic := false } (.ok "Value") }] }

/-- Generator state constructed from `c6_op`. -/
def c6_b : OperationBuilder :=
  { operation := c6_op, type_state := TypeStateList.new [TypeStateItem.new "value"] }

/-- Non-optional variadic operand field: variable-length but `is_optional`
is false, so `builder.rs` treats it as a required field. -/
def c7_vf : OperationField :=
  { name := "values", sanitized_name := "values",
    kind := .element .operand { optional := false, variadic := true } (.ok "ValueRange") }

/-- Operation schema whose single field is a non-optional variadic
operand. -/
def c7_op : Operation :=
  { class_name := "Concat", short_name := "concat", full_name := "test.concat",
    summary := "concat op", can_infer_type := false, fields := [c7_vf] }

/-- Type state derived from `c7_op`: the variadic field receives a slot. -/
def c7_ts : TypeStateList :=
  TypeStateList.new [TypeStateItem.new "values"]

/-- Optional attribute field. -/
def c7w_f : OperationField :=
  { name := "flag", sanitized_name := "flag",
    kind := .attr { optional := true, variadic := false } (.ok "BoolAttr") }

/-- Operation schema whose single field is an optional attribute. -/
def c7w_op : Operation :=
  { class_name := "Flag", short_name := "flag", full_name := "test.flag",
    summary := "flag op", can_infer_type := false, fields := [c7w_f] }

/-- Type state derived from `c7w_op`: no required fields, no slots. -/
def c7w_ts : TypeStateList := TypeStateList.new []

/-- Required operand field named by the reserved word `loop`. -/
def c8_fld : OperationField :=
  { name := "loop", sanitized_name := "r#loop",
    kind := .element .operand { optional := false, variadic := false } (.ok "Value") }

/-- Operation schema holding `c8_fld`. -/
def c8_op : Operation :=
  { class_name := "Loop", short_name := "repeat_op", full_name := "scf.loop",
    summary := "loop op", can_infer_type := false, fields := [c8_fld] }

/-- Required attribute field whose parameter type fails to resolve. -/
def c9_fld : OperationField :=
  { name := "data", sanitized_name := "data",
    kind := .attr { optional := false, variadic := false }
      (.error (.unsupportedType "unsupported attribute type")) }

/-- Operation schema holding `c9_fld`. -/
def c9_op : Operation :=
  { class_name := "Bad", short_name := "bad", full_name := "test.bad",
    summary := "bad op", can_infer_type := false, fields := [c9_fld] }

/-- Generator state constructed from `c9_op`. -/
def c9_b : OperationBuilder :=
  { operation := c9_op, type_state := TypeStateList.new [TypeStateItem.new "data"] }

/-- Optional attribute field whose parameter type fails to resolve. -/
def c9x_fld : OperationField :=
  { name := "opt", sanitized_name := "opt",
    kind := .attr { optional := true, variadic := false }
      (.error (.unsupportedType "bad type")) }

/-- Operation schema whose single field is an optional attribute with a
failing parameter type. -/
def c9x_op : Operation :=
  { class_name := "Slice", short_name := "slice", full_name := "test.slice",
    summary := "slice op", can_infer_type := false, fields := [c9x_fld] }

/-- Generator state constructed from `c9x_op` (no required fields). -/
def c9x_b : OperationBuilder :=
  { operation := c9x_op, type_state := TypeStateList.new [] }

end Dialect

namespace Ir

/-- Runtime error of the melior crate as used by `Operation::result`
(`melior/src/ir/operation.rs`): an out-of-bounds position query carrying
the queried entity name, the printed operation, and the index. -/
inductive Error where
  | positionOutOfBounds (name : String) (value : String) (index : Nat)
deriving DecidableEq

/-- A result value of an operation (`OperationResult` wraps the raw
`MlirValue` handle). -/
structure OperationResult where
  raw : Nat
deriving DecidableEq

/-- An MLIR operation as observed through the C API: its result values
(`mlirOperationGetNumResults` / `mlirOperationGetResult`) and its printed
form (`Display`, used as the `value` of out-of-bounds errors). -/
structure Operation where
  results : List OperationResult
  printed : String
deriving DecidableEq

/-- Rust `Operation::result_count`. -/
def Operation.result_count (op : Operation) : Nat :=
  op.results.length

/-- Rust `Operation::result`: bounds-check the index against
`result_count`, then read the result, else report
`Error::PositionOutOfBounds` with name `"operation result"`, the printed
operation, and the queried index.  The receiver is a shared borrow; the
function is pure. -/
def Operation.result (op : Operation) (index : Nat) : Except Error OperationResult :=
  if h : index < op.result_count then
    .ok (op.results.get ⟨index, h⟩)
  else
    .error (.positionOutOfBounds "operation result" op.printed index)

/-- Operation with exactly one result, printed like the repository's
`result_error` test operation. -/
def c10_op : Operation :=
  { results := [{ raw := 7 }], printed := "\"foo\"() : () -> ()\n" }

end Ir

namespace Dialect

/-- Collecting a list of results preserves the length on success. -/
theorem collect_ok_length {ε α : Type} :
    ∀ (l : List (Except ε α)) (as_ : List α), collect l = .ok as_ →
      as_.length = l.length := by
  intro l
  induction l with
  | nil =>
    intro as_ h
    simp only [collect, Except.ok.injEq] at h
    subst h
    rfl
  | cons x rest ih =>
    intro as_ h
    cases x with
    | error e => simp [collect] at h
    | ok a =>
      simp only [collect] at h
      cases hr : collect rest with
      | error e => rw [hr] at h; simp at h
      | ok bs =>
        rw [hr] at h
        simp only [Except.ok.injEq] at h
        subst h
        simp [ih bs hr]

/-- Appending one success to the collected list appends its value. -/
theorem collect_append_ok {ε α : Type} (x : α) :
    ∀ (l : List (Except ε α)) (as_ : List α), collect l = .ok as_ →
      collect (l ++ [Except.ok x]) = .ok (as_ ++ [x]) := by
  intro l
  induction l with
  | nil =>
    intro as_ h
    simp only [collect, Except.ok.injEq] at h
    subst h
    rfl
  | cons y rest ih =>
    intro as_ h
    cases y with
    | error e => simp [collect] at h
    | ok a =>
      simp only [collect] at h
      cases hr : collect rest with
      | error e => rw [hr] at h; simp at h
      | ok bs =>
        rw [hr] at h
        simp only [Except.ok.injEq] at h
        subst h
        have h2 : collect (rest.append [Except.ok x]) = Except.ok (bs ++ [x]) :=
          ih bs hr
        simp only [List.cons_append, collect]
        rw [h2]

/-- Collecting fails whenever some element of the list is an error. -/
theorem collect_error_of_mem {ε α : Type} :
    ∀ (l : List (Except ε α)) (y : Except ε α), y ∈ l →
      exceptIsError y = true → exceptIsError (collect l) = true := by
  intro l
  induction l with
  | nil => intro y hy _; simp at hy
  | cons x rest ih =>
    intro y hy he
    cases x with
    | error e => simp [collect, exceptIsError]
    | ok a =>
      have hy' : y ∈ rest := by
        rcases List.mem_cons.mp hy with h | h
        · subst h; simp [exceptIsError] at he
        · exact h
      have := ih y hy' he
      simp only [collect]
      cases hr : collect rest with
      | error e => simp [exceptIsError]
      | ok bs => rw [hr] at this; simp [exceptIsError] at this

/-- Positional reading of name-keyed filtering: when slot field names are
distinct and `fname` is the name at index `i`, filtering it out removes
exactly index `i`. -/
theorem tsitems_filter_eraseIdx :
    ∀ (l : List TypeStateItem) (i : Nat) (fname : String),
      (l.map TypeStateItem.field_name).Nodup →
      (l.map TypeStateItem.field_name)[i]? = some fname →
      (l.filter (fun item => item.field_name != fname)).map
          TypeStateItem.generic_param
        = (l.map TypeStateItem.generic_param).eraseIdx i := by
  intro l
  induction l with
  | nil => intro i fname _ hi; simp at hi
  | cons a rest ih =>
    intro i fname hn hi
    simp only [List.map_cons, List.nodup_cons] at hn
    obtain ⟨hna, hnr⟩ := hn
    cases i with
    | zero =>
      simp only [List.map_cons, List.getElem?_cons_zero, Option.some.injEq] at hi
      subst hi
      simp only [List.map_cons, List.eraseIdx_cons_zero, List.filter_cons]
      rw [show (a.field_name != a.field_name) = false by simp]
      simp only [Bool.false_eq_true, if_false]
      have : rest.filter (fun item => item.field_name != a.field_name) = rest := by
        apply List.filter_eq_self.mpr
        intro b hb
        simp only [bne_iff_ne, ne_eq]
        intro hEq
        exact hna (hEq ▸ List.mem_map_of_mem TypeStateItem.field_name hb)
      rw [this]
    | succ i =>
      simp only [List.map_cons, List.getElem?_cons_succ] at hi
      have hne : a.field_name ≠ fname := by
        intro hEq
        apply hna
        rw [hEq]
        have : fname ∈ rest.map TypeStateItem.field_name :=
          List.getElem?_mem hi
        exact this
      simp only [List.map_cons, List.eraseIdx_cons_succ, List.filter_cons]
      rw [show (a.field_name != fname) = true by simp [hne]]
      simp only [if_true, List.map_cons]
      rw [ih i fname hnr hi]

/-- Positional reading of name-keyed replacement: when slot field names
are distinct and `fname` is the name at index `i`, replacing by name
replaces exactly index `i`. -/
theorem tsitems_replace_set (arg : GenericArg) :
    ∀ (l : List TypeStateItem) (i : Nat) (fname : String),
      (l.map TypeStateItem.field_name).Nodup →
      (l.map TypeStateItem.field_name)[i]? = some fname →
      l.map (fun item =>
          if item.field_name == fname then arg else item.generic_param)
        = (l.map TypeStateItem.generic_param).set i arg := by
  intro l
  induction l with
  | nil => intro i fname _ hi; simp at hi
  | cons a rest ih =>
    intro i fname hn hi
    simp only [List.map_cons, List.nodup_cons] at hn
    obtain ⟨hna, hnr⟩ := hn
    cases i with
    | zero =>
      simp only [List.map_cons, List.getElem?_cons_zero, Option.some.injEq] at hi
      subst hi
      simp only [List.map_cons, List.set_cons_zero]
      rw [show (a.field_name == a.field_name) = true by simp]
      simp only [if_true]
      congr 1
      apply List.map_congr_left
      intro b hb
      have hne : b.field_name ≠ a.field_name := by
        intro hEq
        exact hna (hEq ▸ List.mem_map_of_mem TypeStateItem.field_name hb)
      simp [hne]
    | succ i =>
      simp only [List.map_cons, List.getElem?_cons_succ] at hi
      have hne : a.field_name ≠ fname := by
        intro hEq
        apply hna
        rw [hEq]
        exact List.getElem?_mem hi
      simp only [List.map_cons, List.set_cons_succ]
      rw [show (a.field_name == fname) = false by simp [hne]]
      simp only [Bool.false_eq_true, if_false]
      rw [ih i fname hnr hi]

end Dialect

namespace Dialect

/-- C1: the claim states that `create_type_state` fails with a
`NameCollision` error whenever two required field names sanitize to the
same generated generic identifier.  The code performs no such check: on
the schema `c1_op`, whose field names `fooBar` and `foo_bar` both
snake-case to `foo_bar`, `create_type_state` succeeds and returns two
slots carrying the identical generic parameter `__foo_bar`. -/
theorem c1_collision_accepted :
    (TypeStateItem.new "fooBar").generic_param
        = (TypeStateItem.new "foo_bar").generic_param
    ∧ create_type_state c1_op
        = .ok (TypeStateList.new
            [TypeStateItem.new "fooBar", TypeStateItem.new "foo_bar"])
    ∧ ¬ (((TypeStateList.new
            [TypeStateItem.new "fooBar", TypeStateItem.new "foo_bar"]).items.map
          TypeStateItem.generic_param).Nodup) := by
  refine ⟨by decide, by decide, by decide⟩

/-- C3: the generated `build` method is placed on the instantiation in
which every type-state slot is the `Set` marker, and its body requests
result-type inference (`enable_result_type_inference`) exactly when the
operation is marked `can_infer_type`. -/
theorem c3_build_fn (op : Operation) (b : OperationBuilder)
    (hb : OperationBuilder.new op = .ok b) :
    (create_build_fn b).arguments_set
        = List.replicate b.type_state.items.length GenericArg.set
    ∧ (create_build_fn b).infer = op.can_infer_type := by
  simp only [OperationBuilder.new, create_type_state, Except.map,
    Except.ok.injEq] at hb
  subst hb
  exact ⟨rfl, rfl⟩

/-- C3 witness: evaluation on the one-required-field schema `c3_op`. -/
theorem c3_build_fn_witness :
    (create_build_fn c3_b).arguments_set
        = List.replicate c3_b.type_state.items.length GenericArg.set
    ∧ (create_build_fn c3_b).infer = c3_op.can_infer_type :=
  c3_build_fn c3_op c3_b rfl

/-- C4: the required-field set computed by `required_fields` — and fed by
`create_type_state` into slot creation — is exactly the sub-sequence of
schema fields whose arity is not optional, additionally excluding
Result-role fields exactly when the operation supports result-type
inference, in declaration order (`requiredFieldSet_spec` is that set
written as the spec words it). -/
theorem c4_required_field_set (op : Operation) :
    required_fields op = requiredFieldSet_spec op
    ∧ create_type_state op
        = .ok (TypeStateList.new ((requiredFieldSet_spec op).map
            (fun field => TypeStateItem.new field.name))) := by
  have h : required_fields op = requiredFieldSet_spec op := by
    simp only [required_fields, requiredFieldSet_spec, List.filter_filter]
    apply List.filter_congr
    intro f _
    cases hr : f.kind.is_result <;> cases hc : op.can_infer_type <;>
      cases ho : f.kind.is_optional <;> rfl
  exact ⟨h, by rw [create_type_state, h]⟩

/-- C6: the generated `new` constructor is placed on the instantiation in
which every type-state slot is the `Unset` marker, and its body starts
the accumulated state as a fresh empty melior operation builder for the
operation's full name while taking the stored context from the
caller-supplied location's context. -/
theorem c6_new_fn (op : Operation) (b : OperationBuilder) (phantoms : List String)
    (hb : OperationBuilder.new op = .ok b) :
    (create_new_fn b phantoms).arguments_unset
        = List.replicate b.type_state.items.length GenericArg.unset
    ∧ (create_new_fn b phantoms).full_name = op.full_name
    ∧ (create_new_fn b phantoms).phantoms = phantoms
    ∧ ∀ lc : Nat, applyNew (create_new_fn b phantoms) lc
        = { context := lc, op_name := op.full_name, adds := [] } := by
  simp only [OperationBuilder.new, create_type_state, Except.map,
    Except.ok.injEq] at hb
  subst hb
  exact ⟨rfl, rfl, rfl, fun lc => rfl⟩

/-- C6 witness: evaluation on the one-required-field schema `c6_op` with
location context 7. -/
theorem c6_new_fn_witness :
    (create_new_fn c6_b ["value"]).arguments_unset
        = List.replicate c6_b.type_state.items.length GenericArg.unset
    ∧ applyNew (create_new_fn c6_b ["value"]) 7
        = { context := 7, op_name := "test.six", adds := [] } :=
  ⟨(c6_new_fn c6_op c6_b ["value"] rfl).1,
   (c6_new_fn c6_op c6_b ["value"] rfl).2.2.2 7⟩

end Dialect

namespace Ir

/-- C10: for every operation value and index, `Operation::result` returns
the result at that position exactly when `index < result_count()`, and
otherwise returns `Error::PositionOutOfBounds` carrying the name
`"operation result"`, the printed operation, and the queried index; the
receiver is a shared borrow and the model is pure, so the operation is
unchanged. -/
theorem c10_result (op : Operation) (index : Nat) :
    (∀ h : index < op.results.length,
      op.result index = .ok (op.results.get ⟨index, h⟩))
    ∧ (¬ index < op.result_count → op.result index
        = .error (.positionOutOfBounds "operation result" op.printed index))
    ∧ (Dialect.exceptIsError (op.result index) = false
        ↔ index < op.result_count) := by
  refine ⟨?_, ?_, ?_⟩
  · intro h
    simp [Operation.result, Operation.result_count, h]
  · intro h
    simp [Operation.result, h]
  · by_cases h : index < op.result_count <;>
      simp [Operation.result, h, Dialect.exceptIsError]

/-- C10 witness: on a one-result operation, index 0 succeeds with the
stored result and index 1 fails with the out-of-bounds error carrying
index 1. -/
theorem c10_result_witness :
    c10_op.result 0 = .ok { raw := 7 }
    ∧ c10_op.result 1
        = .error (.positionOutOfBounds "operation result"
            "\"foo\"() : () -> ()\n" 1) :=
  ⟨(c10_result c10_op 0).1 (by decide), (c10_result c10_op 1).2.1 (by decide)⟩

end Ir

namespace Dialect

/-- C2: for a required, non-exempt field — the field at index `i` of the
required-field sequence — `create_builder_fns` emits the required-setter
template: generic over the slot parameters with exactly index `i` removed
(order preserved), receiver instantiation = the slot parameters with index
`i` replaced by `Unset`, return instantiation = index `i` replaced by
`Set`; the body merges the value into the accumulated builder and rebuilds
the struct forwarding the stored context and builder value (interpreted by
`applySetter`: context unchanged, one `add` call appended). -/
theorem c2_required_setter (op : Operation) (ts : TypeStateList)
    (fns phs : List String) (f : OperationField) (n pt : String) (i : Nat)
    (hts : create_type_state op = .ok ts)
    (hnodup : (op.fields.map OperationField.name).Nodup)
    (hi : (required_fields op)[i]? = some f)
    (hn : sanitize_snake_case_name f.name = .ok n)
    (hpt : f.kind.parameter_type = .ok pt) :
    create_builder_fn op ts fns phs f
      = .ok (.requiredSetter (builder_identifier op)
          (ts.parameters.eraseIdx i)
          (ts.parameters.set i GenericArg.unset)
          (ts.parameters.set i GenericArg.set)
          n pt ("add_" ++ f.kind.as_str ++ "s") (add_arguments f n) fns phs)
    ∧ ∀ s : BuilderState,
        applySetter (.requiredSetter (builder_identifier op)
          (ts.parameters.eraseIdx i)
          (ts.parameters.set i GenericArg.unset)
          (ts.parameters.set i GenericArg.set)
          n pt ("add_" ++ f.kind.as_str ++ "s") (add_arguments f n) fns phs) s
        = { s with adds := s.adds
              ++ [("add_" ++ f.kind.as_str ++ "s", add_arguments f n)] } := by
  simp only [create_type_state, Except.ok.injEq] at hts
  subst hts
  have hmem : f ∈ required_fields op := List.getElem?_mem hi
  have hmem2 := hmem
  simp only [required_fields, List.mem_filter] at hmem2
  obtain ⟨⟨_, hp1⟩, hp2⟩ := hmem2
  have ho : f.kind.is_optional = false := by
    cases h : f.kind.is_optional
    · rfl
    · rw [h] at hp2; simp at hp2
  have hres : (f.kind.is_result && op.can_infer_type) = false := by
    cases h1 : f.kind.is_result <;> cases h2 : op.can_infer_type <;> simp_all
  have hnames : (((required_fields op).map
        (fun g => TypeStateItem.new g.name)).map TypeStateItem.field_name)
      = (required_fields op).map OperationField.name := by
    rw [List.map_map]; rfl
  have hnodup' : (((required_fields op).map
        (fun g => TypeStateItem.new g.name)).map TypeStateItem.field_name).Nodup := by
    rw [hnames]
    exact List.Nodup.sublist
      (List.Sublist.map _ ((List.filter_sublist _).trans (List.filter_sublist _)))
      hnodup
  have hi' : (((required_fields op).map
        (fun g => TypeStateItem.new g.name)).map TypeStateItem.field_name)[i]?
      = some f.name := by
    rw [hnames, List.getElem?_map, hi]; rfl
  have e1 : (TypeStateList.new ((required_fields op).map
        (fun g => TypeStateItem.new g.name))).parameters_without f.name
      = (TypeStateList.new ((required_fields op).map
          (fun g => TypeStateItem.new g.name))).parameters.eraseIdx i := by
    simp only [TypeStateList.parameters_without, TypeStateList.parameters,
      TypeStateList.new]
    exact tsitems_filter_eraseIdx _ i f.name hnodup' hi'
  have e2 : (TypeStateList.new ((required_fields op).map
        (fun g => TypeStateItem.new g.name))).arguments_unset f.name
      = (TypeStateList.new ((required_fields op).map
          (fun g => TypeStateItem.new g.name))).parameters.set i GenericArg.unset := by
    simp only [TypeStateList.arguments_unset, TypeStateList.arguments_replace,
      TypeStateList.parameters, TypeStateList.new]
    exact tsitems_replace_set GenericArg.unset _ i f.name hnodup' hi'
  have e3 : (TypeStateList.new ((required_fields op).map
        (fun g => TypeStateItem.new g.name))).arguments_set f.name
      = (TypeStateList.new ((required_fields op).map
          (fun g => TypeStateItem.new g.name))).parameters.set i GenericArg.set := by
    simp only [TypeStateList.arguments_set, TypeStateList.arguments_replace,
      TypeStateList.parameters, TypeStateList.new]
    exact tsitems_replace_set GenericArg.set _ i f.name hnodup' hi'
  refine ⟨?_, fun s => rfl⟩
  simp only [create_builder_fn, hn, hpt, ho, hres, Bool.false_eq_true, if_false]
  rw [e1, e2, e3]

/-- C2 witness: on the two-required-field schema `c2_op`, the setter for
`rhs` (index 1) is generic over the `lhs` slot only, goes from the
instantiation with slot 1 `Unset` to the one with slot 1 `Set`, and wraps
the single operand in a slice. -/
theorem c2_required_setter_witness :
    create_builder_fn c2_op c2_ts [] [] c2_rhs
      = .ok (.requiredSetter "AddBuilder" [.param "__lhs"]
          [.param "__lhs", .unset] [.param "__lhs", .set]
          "rhs" "Value" "add_operands" (.sliceWrap "rhs") [] []) :=
  (c2_required_setter c2_op c2_ts [] [] c2_rhs "rhs" "Value" 1
    rfl (by decide) (by decide) (by decide) rfl).1

/-- C5: the convenience constructor has one parameter per required field
(name = the field's sanitized name, type = its parameter type, in
required-field order) followed by the trailing location parameter, and
its body — per the `DefaultConstructorFn` template — chains exactly one
setter call per required field, in order, each passing the same-named
parameter, between `builder(location)` and `build()`. -/
theorem c5_default_constructor (b : OperationBuilder) (name : String)
    (args : List CtorArg)
    (hname : sanitize_snake_case_name b.operation.short_name = .ok name)
    (hargs : collect ((required_fields b.operation).map
        default_constructor_argument) = .ok args) :
    create_default_constructor b
      = .ok { class_name := b.operation.class_name
              fn_name := name
              arguments := args ++ [CtorArg.location]
              builder_calls :=
                (required_fields b.operation).map default_constructor_call }
    ∧ args.length = (required_fields b.operation).length := by
  constructor
  · simp only [create_default_constructor, hname]
    rw [collect_append_ok CtorArg.location _ args hargs]
  · have h := collect_ok_length _ args hargs
    simpa using h

/-- C5 witness: evaluation on the two-required-field schema `c5_op`. -/
theorem c5_default_constructor_witness :
    create_default_constructor c5_b
      = .ok { class_name := "Mul", fn_name := "mul",
              arguments := [CtorArg.field "lhs" "Value",
                  CtorArg.field "rhs" "Value"] ++ [CtorArg.location],
              builder_calls := ["lhs", "rhs"] }
    ∧ ([CtorArg.field "lhs" "Value",
        CtorArg.field "rhs" "Value"] : List CtorArg).length
        = (required_fields c5_op).length :=
  c5_default_constructor c5_b "mul"
    [CtorArg.field "lhs" "Value", CtorArg.field "rhs" "Value"]
    (by decide) (by decide)

/-- C7 (amended): for every field of OPTIONAL arity, the generated setter
is generic over the full slot list, its receiver and return
instantiations are identical (every slot unchanged), and its body only
appends the `add` call.  Non-optional variadic fields are excluded: the
code treats them as required fields (see the counterexample). -/
theorem c7_optional_setter (op : Operation) (ts : TypeStateList)
    (fns phs : List String) (f : OperationField) (n pt : String)
    (hn : sanitize_snake_case_name f.name = .ok n)
    (hpt : f.kind.parameter_type = .ok pt)
    (ho : f.kind.is_optional = true) :
    create_builder_fn op ts fns phs f
      = .ok (.optionalSetter (builder_identifier op) ts.parameters n pt
          ("add_" ++ f.kind.as_str ++ "s") (add_arguments f n))
    ∧ (BuilderFn.optionalSetter (builder_identifier op) ts.parameters n pt
          ("add_" ++ f.kind.as_str ++ "s") (add_arguments f n)).input_arguments
        = (BuilderFn.optionalSetter (builder_identifier op) ts.parameters n pt
          ("add_" ++ f.kind.as_str ++ "s") (add_arguments f n)).output_arguments
    ∧ ∀ s : BuilderState,
        applySetter (BuilderFn.optionalSetter (builder_identifier op)
          ts.parameters n pt ("add_" ++ f.kind.as_str ++ "s")
          (add_arguments f n)) s
        = { s with adds := s.adds
              ++ [("add_" ++ f.kind.as_str ++ "s", add_arguments f n)] } := by
  refine ⟨?_, rfl, fun s => rfl⟩
  simp [create_builder_fn, hn, hpt, ho]

/-- C7 witness: evaluation on the optional-attribute schema `c7w_op`. -/
theorem c7_optional_setter_witness :
    create_builder_fn c7w_op c7w_ts [] [] c7w_f
      = .ok (.optionalSetter "FlagBuilder" [] "flag" "BoolAttr"
          "add_attributes" (.keyValue "flag" "flag")) :=
  (c7_optional_setter c7w_op c7w_ts [] [] c7w_f "flag" "BoolAttr"
    (by decide) rfl rfl).1

/-- C7 counterexample: the claim also covers variadic arity, but on the
non-optional variadic operand field `c7_vf` the code emits a
required-style setter whose receiver instantiation (slot `Unset`) differs
from its return instantiation (slot `Set`) — it is not defined for every
instantiation and does change the type arguments. -/
theorem c7_variadic_counterexample :
    create_builder_fn c7_op c7_ts [] [] c7_vf
      = .ok (.requiredSetter "ConcatBuilder" [] [.unset] [.set]
          "values" "ValueRange" "add_operands" (.passThrough "values") [] [])
    ∧ (BuilderFn.requiredSetter "ConcatBuilder" []
          [GenericArg.unset] [GenericArg.set]
          "values" "ValueRange" "add_operands"
          (.passThrough "values") [] []).input_arguments
        ≠ (BuilderFn.requiredSetter "ConcatBuilder" []
          [GenericArg.unset] [GenericArg.set]
          "values" "ValueRange" "add_operands"
          (.passThrough "values") [] []).output_arguments := by
  refine ⟨by decide, by decide⟩

/-- C8: the setter-method name emitted by `create_builder_fns`
(`sanitize_snake_case_name(field.name)`) and the parameter/call name used by
the convenience constructor (the field's stored `sanitized_name`) are the
same identifier — the deterministic sanitization of the field name — also
when the name is a reserved word. -/
theorem c8_sanitized_names_agree (op : Operation) (ts : TypeStateList)
    (fns phs : List String) (f : OperationField) (pt : String)
    (hs : sanitize_snake_case_name f.name = .ok f.sanitized_name)
    (hpt : f.kind.parameter_type = .ok pt)
    (hne : (f.kind.is_result && op.can_infer_type) = false) :
    (create_builder_fn op ts fns phs f).map BuilderFn.methodName
        = .ok (some f.sanitized_name)
    ∧ default_constructor_argument f = .ok (.field f.sanitized_name pt)
    ∧ default_constructor_call f = f.sanitized_name := by
  refine ⟨?_, ?_, rfl⟩
  · simp only [create_builder_fn, hs, hpt]
    cases ho : f.kind.is_optional
    · simp [hne, BuilderFn.methodName, Except.map]
    · simp [BuilderFn.methodName, Except.map]
  · simp [default_constructor_argument, hpt, Except.map]

/-- C8 witness: the field named by the reserved word `loop` sanitizes to
`r#loop` in both the setter name and the constructor parameter name. -/
theorem c8_sanitized_names_agree_witness :
    (create_builder_fn c8_op (TypeStateList.new [TypeStateItem.new "loop"])
        [] [] c8_fld).map BuilderFn.methodName = .ok (some "r#loop")
    ∧ default_constructor_argument c8_fld = .ok (.field "r#loop" "Value")
    ∧ default_constructor_call c8_fld = "r#loop" :=
  c8_sanitized_names_agree c8_op (TypeStateList.new [TypeStateItem.new "loop"])
    [] [] c8_fld "Value" (by decide) rfl (by decide)

/-- Helper for C9: a field whose sanitization or parameter-type resolution
fails makes its `create_builder_fns` item an error. -/
theorem create_builder_fn_error (op : Operation) (ts : TypeStateList)
    (fns phs : List String) (f : OperationField)
    (hbad : exceptIsError (sanitize_snake_case_name f.name) = true
        ∨ exceptIsError f.kind.parameter_type = true) :
    exceptIsError (create_builder_fn op ts fns phs f) = true := by
  cases hs : sanitize_snake_case_name f.name with
  | error e => simp [create_builder_fn, hs, exceptIsError]
  | ok n =>
    cases hp : f.kind.parameter_type with
    | error e => simp [create_builder_fn, hs, hp, exceptIsError]
    | ok pt =>
      exfalso
      rcases hbad with h | h
      · rw [hs] at h; simp [exceptIsError] at h
      · rw [hp] at h; simp [exceptIsError] at h

/-- C9 (amended): `builder` returns the error (emitting nothing) whenever
ANY field's name sanitization or parameter-type resolution fails;
`create_default_constructor` returns the error (emitting nothing)
whenever the operation short-name sanitization fails or a REQUIRED
field's parameter-type resolution fails — failures of optional fields do
not reach it (see the counterexample). -/
theorem c9_error_propagation (b : OperationBuilder) (f : OperationField)
    (hf : f ∈ b.operation.fields)
    (hbad : exceptIsError (sanitize_snake_case_name f.name) = true
        ∨ exceptIsError f.kind.parameter_type = true) :
    exceptIsError (OperationBuilder.builder b) = true
    ∧ ((exceptIsError (sanitize_snake_case_name b.operation.short_name) = true
        ∨ ∃ g, g ∈ required_fields b.operation
            ∧ exceptIsError g.kind.parameter_type = true) →
       exceptIsError (create_default_constructor b) = true) := by
  constructor
  · cases h1 : collect (b.type_state.items.map
        (fun item => sanitize_snake_case_name item.field_name)) with
    | error e => simp [OperationBuilder.builder, h1, exceptIsError]
    | ok field_names =>
      have hferr : exceptIsError
          (create_builder_fn b.operation b.type_state field_names field_names f)
          = true :=
        create_builder_fn_error b.operation b.type_state field_names field_names
          f hbad
      have hmem : create_builder_fn b.operation b.type_state field_names
            field_names f
          ∈ create_builder_fns b field_names field_names :=
        List.mem_map_of_mem _ hf
      have hcol : exceptIsError
          (collect (create_builder_fns b field_names field_names)) = true :=
        collect_error_of_mem _ _ hmem hferr
      cases h2 : collect (create_builder_fns b field_names field_names) with
      | error e => simp [OperationBuilder.builder, h1, h2, exceptIsError]
      | ok _ => rw [h2] at hcol; simp [exceptIsError] at hcol
  · intro hc
    cases hsn : sanitize_snake_case_name b.operation.short_name with
    | error e => simp [create_default_constructor, hsn, exceptIsError]
    | ok name =>
      rcases hc with h | ⟨g, hg, hge⟩
      · rw [hsn] at h; simp [exceptIsError] at h
      · have hdca : exceptIsError (default_constructor_argument g) = true := by
          cases hp : g.kind.parameter_type with
          | error e =>
            simp [default_constructor_argument, hp, Except.map, exceptIsError]
          | ok pt => rw [hp] at hge; simp [exceptIsError] at hge
        have hmem : default_constructor_argument g
            ∈ (required_fields b.operation).map default_constructor_argument
              ++ [Except.ok CtorArg.location] :=
          List.mem_append_left _ (List.mem_map_of_mem _ hg)
        have hcol := collect_error_of_mem _ _ hmem hdca
        cases h2 : collect ((required_fields b.operation).map
            default_constructor_argument ++ [Except.ok CtorArg.location]) with
        | error e => simp [create_default_constructor, hsn, h2, exceptIsError]
        | ok _ => rw [h2] at hcol; simp [exceptIsError] at hcol

/-- C9 witness: on `c9_op` — whose single required field has a failing
parameter type — both entry points return the error. -/
theorem c9_error_propagation_witness :
    exceptIsError (OperationBuilder.builder c9_b) = true
    ∧ exceptIsError (create_default_constructor c9_b) = true :=
  ⟨(c9_error_propagation c9_b c9_fld (by decide) (Or.inr (by decide))).1,
   (c9_error_propagation c9_b c9_fld (by decide) (Or.inr (by decide))).2
     (Or.inr ⟨c9_fld, by decide, by decide⟩)⟩

/-- C9 counterexample: on `c9x_op`, whose single OPTIONAL field has a
failing parameter type, `builder` returns the error but
`create_default_constructor` succeeds and returns output — refuting the
claim that both entry points return the error whenever any field's
resolution fails. -/
theorem c9_counterexample :
    exceptIsError c9x_fld.kind.parameter_type = true
    ∧ exceptIsError (OperationBuilder.builder c9x_b) = true
    ∧ create_default_constructor c9x_b
        = .ok { class_name := "Slice", fn_name := "slice",
                arguments := [CtorArg.location], builder_calls := [] } := by
  refine ⟨by decide, by decide, by decide⟩

end Dialect
